import Mathlib

/-!
# Verification of `dados.py` (ENEM microdata ETL pipeline)

Shallow embedding of the core ETL functions of `dados.py`:

* `carregar_tabela_csv`   — chunked bulk CSV loader (source lines 138–173)
* `carregar_tabela_resultados` — positional join loader (lines 176–228)
* `verificar_carregar`    — load orchestrator (lines 231–261)
* `extrair_processar`     — extractor/transformer (lines 266–303)
* `carregar_config`       — configuration loader (lines 83–106)

Tables in the relational store are modelled as `Option (List ρ)`:
`none` means the table does not exist, `some rows` gives its contents.
Files on disk are modelled as maps `String → Option (List ρ)` from path
to contents (`none` = missing file).  Scores are rationals (`ℚ`): the
Python floats are modelled exactly, so "within floating-point tolerance"
statements are proved as exact equalities.
-/

namespace Dados

/-- `if_exists` argument of pandas `DataFrame.to_sql`. -/
inductive IfExists where
  | replace
  | append
deriving DecidableEq

/-- A table in the store: `none` if absent, `some rows` its contents. -/
abbrev Table (ρ : Type) := Option (List ρ)

/-- pandas `DataFrame.to_sql`: `replace` drops and recreates the table with
exactly the written rows; `append` adds the rows to the existing contents
(creating the table when it does not exist). -/
def to_sql (t : Table ρ) (chunk : List ρ) (mode : IfExists) : Table ρ :=
  match mode with
  | .replace => some chunk
  | .append => some (t.getD [] ++ chunk)

/-- The batches produced by `pd.read_csv(..., chunksize=B)`: successive
slices of `B` rows (the last may be shorter), with no trailing empty batch.
A file whose header parses but that has zero data rows yields exactly one
empty first batch: the `_first_chunk` handling of the pandas C parser
(GH-9535) converts the immediate `StopIteration` of the engine into an
empty frame on the first read, and only the second read ends the
iteration — hence the empty list maps to `[[]]`.  (A completely empty
file raises `EmptyDataError` before any batch and is outside this model
of a file of N rows.)  For `B = 0` this definition behaves like `B = 1`;
the loader is only ever called with `B ≥ 1`.  `chunkGo` is the
fuel-indexed worker for the non-empty case; `chunkList` supplies the
length of the list as fuel, which always suffices. -/
def chunkGo (B : Nat) : Nat → List ρ → List (List ρ)
  | _, [] => []
  | 0, _ :: _ => []
  | fuel + 1, a :: l => (a :: l.take (B - 1)) :: chunkGo B fuel (l.drop (B - 1))

def chunkList (B : Nat) (l : List ρ) : List (List ρ) :=
  match l with
  | [] => [[]]
  | a :: t => chunkGo B (a :: t).length (a :: t)

/-- `carregar_tabela_csv` (dados.py lines 138–173): raise
`FileNotFoundError` when the source file is missing, otherwise write the
rows of the file chunk by chunk, the first chunk with `if_exists`
set to `replace` and every later chunk (`i > 0`) with `append`.  The `table` argument is the
state of the target table `nome_tabela`; the returned value is its new
state (`.error` means the exception propagated and the table was not
touched). -/
def carregar_tabela_csv (fs : String → Option (List ρ)) (caminho_csv : String)
    (chunksize : Nat) (table : Table ρ) : Except String (Table ρ) :=
  match fs caminho_csv with
  | none => .error ("Arquivo não encontrado: " ++ caminho_csv)
  | some rows =>
      .ok ((chunkList chunksize rows).enum.foldl
        (fun t ic => to_sql t ic.2 (if ic.1 > 0 then .append else .replace))
        table)

/-- One row of the table written by the join loader: the columns of the
result-file row together with the attached `NU_INSCRICAO` column (which
pandas fills with null when the registration-number series is shorter than
the result frame). -/
structure JoinedRow (σ ι : Type) where
  resultado : σ
  NU_INSCRICAO : Option ι
deriving DecidableEq

/-- The pandas column assignment
assigning the `NU_INSCRICAO` series of `df_inscricoes` to the
`NU_INSCRICAO` column of `df_resultados`
(dados.py line 215).  Both frames carry the default `RangeIndex`, so the
assignment aligns positionally: row `i` receives element `i` of the series,
`none` (NaN) when the series has fewer rows; surplus series elements are
dropped. -/
def atribuir_inscricao (resultados : List σ) (inscricoes : List ι) :
    List (JoinedRow σ ι) :=
  resultados.enum.map fun ir => ⟨ir.2, inscricoes[ir.1]?⟩

/-- `carregar_tabela_resultados` (dados.py lines 176–228): raise
`FileNotFoundError` when the result file is missing (before any read);
read the `NU_INSCRICAO` column of the participant file (`usecols`, so
`arquivos_participantes` maps the path to that single column; a missing
participant file makes `pd.read_csv` raise the same error); read the
result file; attach the registration numbers positionally; write the
augmented frame with `if_exists` set to `replace`. -/
def carregar_tabela_resultados (arquivos_resultados : String → Option (List σ))
    (arquivos_participantes : String → Option (List ι))
    (arquivo_resultados arquivo_participantes : String)
    (table : Table (JoinedRow σ ι)) : Except String (Table (JoinedRow σ ι)) :=
  match arquivos_resultados arquivo_resultados with
  | none => .error ("Arquivo não encontrado: " ++ arquivo_resultados)
  | some _ =>
      match arquivos_participantes arquivo_participantes with
      | none => .error ("Arquivo não encontrado: " ++ arquivo_participantes)
      | some inscricoes =>
          match arquivos_resultados arquivo_resultados with
          | none => .error ("Arquivo não encontrado: " ++ arquivo_resultados)
          | some resultados =>
              .ok (to_sql table (atribuir_inscricao resultados inscricoes)
                IfExists.replace)

/-- The ETL steps `verificar_carregar` can trigger. -/
inductive EtapaCarga where
  | carga_participantes
  | carga_resultados
deriving DecidableEq

/-- `verificar_carregar` (dados.py lines 231–261), as the list of load
steps it performs given the two table-existence flags returned by
`inspector.has_table`: return early when both tables exist; otherwise run
`carregar_tabela_csv` when the participant table is missing and
`carregar_tabela_resultados` when the result table is missing, in that
order. -/
def verificar_carregar (tem_participantes tem_resultados : Bool) :
    List EtapaCarga :=
  if tem_participantes && tem_resultados then []
  else
    (if !tem_participantes then [EtapaCarga.carga_participantes] else []) ++
      (if !tem_resultados then [EtapaCarga.carga_resultados] else [])

/-- A row of the `participantes` table, restricted to the columns the
analysis query touches. -/
structure ParticipanteRow where
  NU_INSCRICAO : String
  Q006 : String
  TP_SEXO : String
  TP_COR_RACA : Int
  SG_UF_PROVA : String
deriving DecidableEq

/-- A row of the `resultados` table, restricted to the columns the analysis
query touches.  Scores and the attached registration number can be SQL
NULL, hence `Option`. -/
structure ResultadoRow where
  NU_INSCRICAO : Option String
  NU_NOTA_CN : Option ℚ
  NU_NOTA_CH : Option ℚ
  NU_NOTA_LC : Option ℚ
  NU_NOTA_MT : Option ℚ
  NU_NOTA_REDACAO : Option ℚ
deriving DecidableEq

/-- A row returned by the analysis query of `extrair_processar`. -/
structure QueryRow where
  Q006 : String
  TP_SEXO : String
  TP_COR_RACA : Int
  SG_UF_PROVA : String
  NU_NOTA_CN : Option ℚ
  NU_NOTA_CH : Option ℚ
  NU_NOTA_LC : Option ℚ
  NU_NOTA_MT : Option ℚ
  NU_NOTA_REDACAO : Option ℚ
deriving DecidableEq

/-- The SQL query of `extrair_processar` (dados.py lines 279–286): inner
join of `participantes` and `resultados` on `NU_INSCRICAO`, restricted to
`Q006` in (`A`, `B`), projecting the listed columns.  A NULL key never
satisfies the SQL equality, hence the comparison with `some`. -/
def consulta (ps : List ParticipanteRow) (rs : List ResultadoRow) :
    List QueryRow :=
  ps.flatMap fun p =>
    rs.filterMap fun r =>
      if r.NU_INSCRICAO = some p.NU_INSCRICAO ∧
          (p.Q006 = "A" ∨ p.Q006 = "B") then
        some ⟨p.Q006, p.TP_SEXO, p.TP_COR_RACA, p.SG_UF_PROVA,
          r.NU_NOTA_CN, r.NU_NOTA_CH, r.NU_NOTA_LC, r.NU_NOTA_MT,
          r.NU_NOTA_REDACAO⟩
      else none

/-- Whether the five score columns of a row are all non-null:
the predicate behind `df.dropna(subset=col_notas)` (lines 293–294). -/
def notas_completas (q : QueryRow) : Bool :=
  q.NU_NOTA_CN.isSome && q.NU_NOTA_CH.isSome && q.NU_NOTA_LC.isSome &&
    q.NU_NOTA_MT.isSome && q.NU_NOTA_REDACAO.isSome

/-- `df.dropna(subset=col_notas, inplace=True)` (line 294). -/
def dropna_notas (df : List QueryRow) : List QueryRow :=
  df.filter notas_completas

/-- pandas `DataFrame.mean(axis=1)` on one row: mean of the non-null
entries (`skipna` defaults to true), NaN when all entries are null. -/
def mean_axis1 (vs : List (Option ℚ)) : Option ℚ :=
  let xs := vs.filterMap id
  if xs.isEmpty then none else some (xs.sum / xs.length)

/-- The income-label mapping `Q006.map(...)` of line 300: pandas `Series.map`
with a dict sends keys outside the dict to NaN (`none`). -/
def mapa_renda (codigo : String) : Option String :=
  if codigo = "A" then some "Nenhuma Renda"
  else if codigo = "B" then some "Até 1,3k"
  else none

/-- A row of the DataFrame returned by `extrair_processar`: the queried
columns plus the two derived columns. -/
structure AnaliseRow where
  base : QueryRow
  NOTA_MEDIA_OBJETIVA : Option ℚ
  GRUPO_RENDA : Option String
deriving DecidableEq

/-- `extrair_processar` (dados.py lines 266–303) after the query: drop rows
with a null among the five scores, then add `NOTA_MEDIA_OBJETIVA` (row-wise
mean of the four objective scores, line 297) and `GRUPO_RENDA` (line 300). -/
def extrair_processar (ps : List ParticipanteRow) (rs : List ResultadoRow) :
    List AnaliseRow :=
  (dropna_notas (consulta ps rs)).map fun q =>
    ⟨q, mean_axis1 [q.NU_NOTA_CN, q.NU_NOTA_CH, q.NU_NOTA_LC, q.NU_NOTA_MT],
      mapa_renda q.Q006⟩

/-- The environment variables read by `carregar_config` via `os.getenv`
(`none` models an unset variable). -/
structure Env where
  DB_HOST : Option String
  DB_PORT : Option String
  DB_NAME : Option String
  DB_USER : Option String
  DB_PASS : Option String
  ARQUIVO_PARTICIPANTES : Option String
  ARQUIVO_RESULTADOS : Option String
  TABELA_PARTICIPANTES : Option String
  TABELA_RESULTADOS : Option String
deriving DecidableEq

/-- The config dict built by `carregar_config`: `DB_PORT` goes through
`int(...)`; every other key stores exactly what `os.getenv` returned,
including `none` for unset variables. -/
structure Config where
  DB_HOST : Option String
  DB_PORT : Int
  DB_NAME : Option String
  DB_USER : Option String
  DB_PASS : Option String
  ARQUIVO_PARTICIPANTES : Option String
  ARQUIVO_RESULTADOS : Option String
  TABELA_PARTICIPANTES : Option String
  TABELA_RESULTADOS : Option String
deriving DecidableEq

/-- Outcome of `carregar_config`: `erro_tipo` is the `TypeError` raised by
`int(None)` when `DB_PORT` is unset, `erro_valor` the `ValueError` of
`int` on a non-numeric string (both propagate uncaught), `encerrado` is
`sys.exit(1)` after printing the message, `ok` a normal return. -/
inductive ConfigResultado where
  | erro_tipo
  | erro_valor
  | encerrado (msg : String)
  | ok (cfg : Config)
deriving DecidableEq

/-- Decimal digits to a number, `none` on the empty list or a non-digit:
the core of Python `int` on a string. -/
def digitosParaNat (cs : List Char) : Option Nat :=
  if cs.isEmpty then none
  else cs.foldl (fun acc c =>
    match acc with
    | none => none
    | some n => if c.isDigit then some (10 * n + (c.toNat - 48)) else none)
    (some 0)

/-- Python `int(s)` on a string, `none` when it raises `ValueError`:
an optional leading minus sign (codepoint 45) followed by decimal digits.
(The whitespace and underscore tolerance of Python `int` is not modelled;
no claim depends on it.) -/
def python_int (s : String) : Option Int :=
  match s.data with
  | [] => none
  | c :: cs =>
      if c = Char.ofNat 45 then (digitosParaNat cs).map (fun n => -(n : Int))
      else (digitosParaNat (c :: cs)).map (fun n => (n : Int))

/-- Whether the outcome is the descriptive `sys.exit(1)` termination that
`carregar_config` itself performs. -/
def ConfigResultado.encerrou : ConfigResultado → Bool
  | .encerrado _ => true
  | _ => false

/-- First line printed before `sys.exit(1)` when `DB_PASS` is falsy
(line 102). -/
def msg_senha_ausente : String :=
  "❌ ERRO: Senha do banco (DB_PASS) não configurada no arquivo .env!"

/-- `carregar_config` (dados.py lines 83–106): build the config dict —
during which `int(os.getenv(\x22DB_PORT\x22))` raises on an unset or
non-numeric port — then exit with a message only when `DB_PASS` is falsy
(unset or the empty string).  No other key is checked. -/
def carregar_config (env : Env) : ConfigResultado :=
  match env.DB_PORT with
  | none => .erro_tipo
  | some s =>
      match python_int s with
      | none => .erro_valor
      | some porta =>
          let config : Config :=
            { DB_HOST := env.DB_HOST
              DB_PORT := porta
              DB_NAME := env.DB_NAME
              DB_USER := env.DB_USER
              DB_PASS := env.DB_PASS
              ARQUIVO_PARTICIPANTES := env.ARQUIVO_PARTICIPANTES
              ARQUIVO_RESULTADOS := env.ARQUIVO_RESULTADOS
              TABELA_PARTICIPANTES := env.TABELA_PARTICIPANTES
              TABELA_RESULTADOS := env.TABELA_RESULTADOS }
          if config.DB_PASS = none ∨ config.DB_PASS = some "" then
            .encerrado msg_senha_ausente
          else
            .ok config

/-- Whether `pat` is a prefix of the character list. -/
def prefixo : List Char → List Char → Bool
  | [], _ => true
  | _ :: _, [] => false
  | a :: xs, b :: ys => a == b && prefixo xs ys

/-- Whether `pat` occurs somewhere in the character list. -/
def ocorre (pat : List Char) : List Char → Bool
  | [] => prefixo pat []
  | c :: cs => prefixo pat (c :: cs) || ocorre pat cs

/-- Whether `padrao` occurs as a contiguous substring of `s`. -/
def contem_texto (s padrao : String) : Bool := ocorre padrao.data s.data

/-- The SQL text of the analysis query (dados.py lines 279–286), verbatim
modulo whitespace. -/
def consulta_sql : String :=
  "SELECT p.\"Q006\", p.\"TP_SEXO\", p.\"TP_COR_RACA\", p.\"SG_UF_PROVA\", r.\"NU_NOTA_CN\", r.\"NU_NOTA_CH\", r.\"NU_NOTA_LC\", r.\"NU_NOTA_MT\", r.\"NU_NOTA_REDACAO\" FROM participantes AS p JOIN resultados AS r ON p.\"NU_INSCRICAO\" = r.\"NU_INSCRICAO\" WHERE p.\"Q006\" IN (\x27A\x27, \x27B\x27);"

/-- The table names in the FROM and JOIN clauses of `consulta_sql`: written
literally in the SQL, not taken from the configuration. -/
def tabelas_da_consulta : List String := ["participantes", "resultados"]

/-- The table names `verificar_carregar` checks and loads (lines 240–241):
taken from the configuration dict. -/
def tabelas_do_orquestrador (cfg : Config) : List (Option String) :=
  [cfg.TABELA_PARTICIPANTES, cfg.TABELA_RESULTADOS]

/-- A configuration with non-default table names, as the configurable
table-name surface allows. -/
def config_exemplo : Config :=
  { DB_HOST := some "localhost"
    DB_PORT := 5432
    DB_NAME := some "enem"
    DB_USER := some "postgres"
    DB_PASS := some "segredo"
    ARQUIVO_PARTICIPANTES := some "PARTICIPANTES_2024.csv"
    ARQUIVO_RESULTADOS := some "RESULTADOS_2024.csv"
    TABELA_PARTICIPANTES := some "enem_participantes"
    TABELA_RESULTADOS := some "enem_resultados" }

end Dados

namespace Dados

/-- With enough fuel, concatenating the chunks recovers the rows of the file. -/
theorem chunkGo_flatten (B : Nat) :
    ∀ (fuel : Nat) (l : List ρ), l.length ≤ fuel →
      (chunkGo B fuel l).flatten = l := by
  intro fuel
  induction fuel with
  | zero =>
      intro l h
      cases l with
      | nil => rfl
      | cons a t => simp at h
  | succ n ih =>
      intro l h
      cases l with
      | nil => rfl
      | cons a t =>
          rw [chunkGo, List.flatten_cons, ih (t.drop (B - 1))]
          · simp
          · simp only [List.length_drop]
            simp only [List.length_cons] at h
            omega

/-- Concatenating the chunks recovers the rows of the file. -/
theorem chunkList_flatten (B : Nat) (l : List ρ) : (chunkList B l).flatten = l := by
  cases l with
  | nil => rfl
  | cons a t => exact chunkGo_flatten B (a :: t).length (a :: t) (Nat.le_refl _)

/-- Folding `append`-mode writes over chunks concatenates them onto the
existing contents (all indices in `enumFrom k` with `k ≥ 1` are positive). -/
theorem foldl_append_chunks (cs : List (List ρ)) (k : Nat) (hk : 0 < k)
    (acc : List ρ) :
    (cs.enumFrom k).foldl
        (fun t ic => to_sql t ic.2 (if ic.1 > 0 then .append else .replace))
        (some acc) = some (acc ++ cs.flatten) := by
  induction cs generalizing k acc with
  | nil => simp
  | cons c cs ih =>
      have h1 : to_sql (some acc) c (if k > 0 then IfExists.append else IfExists.replace)
          = some (acc ++ c) := by
        rw [if_pos hk]
        rfl
      rw [List.enumFrom_cons, List.foldl_cons,
        show to_sql (some acc) (k, c).2 (if (k, c).1 > 0 then IfExists.append
          else IfExists.replace) = some (acc ++ c) from h1,
        ih (k + 1) (Nat.succ_pos k) (acc ++ c), List.flatten_cons,
        List.append_assoc]

/-- Row `i` of the positionally augmented frame pairs result row `i` with
element `i` of the registration-number series (`none` when absent). -/
theorem atribuir_inscricao_getElem (resultados : List σ) (inscricoes : List ι)
    (i : Nat) (r : σ) (hr : resultados[i]? = some r) :
    (atribuir_inscricao resultados inscricoes)[i]? =
      some ⟨r, inscricoes[i]?⟩ := by
  unfold atribuir_inscricao
  rw [List.getElem?_map, List.getElem?_enum, hr]
  rfl

/-- The augmented frame has exactly one row per result row. -/
theorem atribuir_inscricao_length (resultados : List σ) (inscricoes : List ι) :
    (atribuir_inscricao resultados inscricoes).length = resultados.length := by
  unfold atribuir_inscricao
  rw [List.length_map, List.enum_length]

/-- C1: for every batch size `B ≥ 1` and every source file of `N` rows,
`carregar_tabela_csv` leaves the target table holding exactly the `N` file
rows — independent of `B` and of the prior state of the table: the first
batch (the empty first batch included, when the file has zero data rows)
replaces the prior contents and every later batch appends. -/
theorem carregar_tabela_csv_conta_linhas (fs : String → Option (List ρ))
    (caminho : String) (B : Nat) (hB : 1 ≤ B) (rows : List ρ)
    (harq : fs caminho = some rows) (table : Table ρ) :
    carregar_tabela_csv fs caminho B table = .ok (some rows) := by
  cases rows with
  | nil =>
      have hred : carregar_tabela_csv fs caminho B table =
          .ok ((chunkList B ([] : List ρ)).enum.foldl
            (fun tb ic => to_sql tb ic.2
              (if ic.1 > 0 then IfExists.append else IfExists.replace))
            table) := by
        unfold carregar_tabela_csv
        rw [harq]
      rw [hred]
      rfl
  | cons a t =>
      have hred : carregar_tabela_csv fs caminho B table =
          .ok ((chunkList B (a :: t)).enum.foldl
            (fun tb ic => to_sql tb ic.2
              (if ic.1 > 0 then IfExists.append else IfExists.replace))
            table) := by
        unfold carregar_tabela_csv
        rw [harq]
      have hchunk : chunkList B (a :: t) =
          (a :: t.take (B - 1)) :: chunkGo B t.length (t.drop (B - 1)) := rfl
      rw [hred, hchunk, List.enum_cons, List.foldl_cons,
        show to_sql table ((0, a :: t.take (B - 1)) : Nat × List ρ).2
            (if ((0, a :: t.take (B - 1)) : Nat × List ρ).1 > 0 then
              IfExists.append else IfExists.replace)
          = some (a :: t.take (B - 1)) from rfl,
        foldl_append_chunks _ 1 Nat.one_pos,
        chunkGo_flatten B t.length (t.drop (B - 1))
          (by simp only [List.length_drop]; omega)]
      simp

/-- Witness for `carregar_tabela_csv_conta_linhas` at a 3-row file with
batch size 2 and at a 0-row file with batch size 1, both over a non-empty
prior table (the empty first batch still replaces the prior row). -/
theorem carregar_tabela_csv_conta_linhas_witness :
    carregar_tabela_csv (fun _ => some [10, 20, 30]) "participantes.csv" 2
        (some [99]) = .ok (some [10, 20, 30]) ∧
      carregar_tabela_csv (fun _ => some ([] : List Nat)) "vazio.csv" 1
        (some [42]) = .ok (some []) :=
  ⟨carregar_tabela_csv_conta_linhas (fun _ => some [10, 20, 30])
      "participantes.csv" 2 (by decide) [10, 20, 30] rfl (some [99]),
    carregar_tabela_csv_conta_linhas (fun _ => some ([] : List Nat))
      "vazio.csv" 1 (by decide) [] rfl (some [42])⟩

/-- C2: for input files with equal row counts, the join loader replaces the
prior contents of the target table with the result rows augmented positionally:
persisted row `i` carries the registration number of participant-file row
`i` (no key-based join is involved). -/
theorem carregar_tabela_resultados_alinha_posicional
    (aR : String → Option (List σ)) (aP : String → Option (List ι))
    (fR fP : String) (resultados : List σ) (inscricoes : List ι)
    (hR : aR fR = some resultados) (hP : aP fP = some inscricoes)
    (hlen : resultados.length = inscricoes.length)
    (table : Table (JoinedRow σ ι)) :
    carregar_tabela_resultados aR aP fR fP table =
        .ok (some (atribuir_inscricao resultados inscricoes)) ∧
      ∀ (i : Nat) (r : σ) (ins : ι),
        resultados[i]? = some r → inscricoes[i]? = some ins →
        (atribuir_inscricao resultados inscricoes)[i]?
          = some (JoinedRow.mk r (some ins)) := by
  constructor
  · unfold carregar_tabela_resultados
    rw [hR, hP]
    rfl
  · intro i r ins hr hins
    rw [atribuir_inscricao_getElem resultados inscricoes i r hr, hins]

/-- Witness for `carregar_tabela_resultados_alinha_posicional` on two
2-row files. -/
theorem carregar_tabela_resultados_alinha_posicional_witness :
    carregar_tabela_resultados (fun _ => some [10, 20]) (fun _ => some [5, 6])
        "resultados.csv" "participantes.csv" none
        = .ok (some [⟨10, some 5⟩, ⟨20, some 6⟩]) ∧
      (atribuir_inscricao [10, 20] [5, 6])[1]? = some ⟨20, some 6⟩ := by
  have h := carregar_tabela_resultados_alinha_posicional
    (fun _ => some [10, 20]) (fun _ => some [5, 6])
    "resultados.csv" "participantes.csv" [10, 20] [5, 6] rfl rfl rfl none
  exact ⟨h.1, h.2 1 20 6 rfl rfl⟩

/-- C10: with both files present but row counts different, the join loader
still succeeds: the written table has one row per result row, surplus
result rows get a null registration number, and surplus registration
numbers are dropped (the table length ignores them). -/
theorem carregar_tabela_resultados_tamanhos_diferentes
    (aR : String → Option (List σ)) (aP : String → Option (List ι))
    (fR fP : String) (resultados : List σ) (inscricoes : List ι)
    (hR : aR fR = some resultados) (hP : aP fP = some inscricoes)
    (table : Table (JoinedRow σ ι)) :
    carregar_tabela_resultados aR aP fR fP table =
        .ok (some (atribuir_inscricao resultados inscricoes)) ∧
      (atribuir_inscricao resultados inscricoes).length = resultados.length ∧
      ∀ (i : Nat) (r : σ), inscricoes.length ≤ i → resultados[i]? = some r →
        (atribuir_inscricao resultados inscricoes)[i]?
          = some (JoinedRow.mk r none) := by
  refine ⟨?_, atribuir_inscricao_length resultados inscricoes, ?_⟩
  · unfold carregar_tabela_resultados
    rw [hR, hP]
    rfl
  · intro i r hle hr
    rw [atribuir_inscricao_getElem resultados inscricoes i r hr,
      List.getElem?_eq_none hle]

/-- Witness for `carregar_tabela_resultados_tamanhos_diferentes` with a
3-row result file and a 1-row registration series. -/
theorem carregar_tabela_resultados_tamanhos_diferentes_witness :
    carregar_tabela_resultados (fun _ => some [10, 20, 30])
        (fun _ => some [5]) "resultados.csv" "participantes.csv" none
        = .ok (some [⟨10, some 5⟩, ⟨20, none⟩, ⟨30, none⟩]) ∧
      (atribuir_inscricao [10, 20, 30] [5]).length = 3 ∧
      (atribuir_inscricao [10, 20, 30] [5])[2]? = some ⟨30, none⟩ := by
  have h := carregar_tabela_resultados_tamanhos_diferentes
    (fun _ => some [10, 20, 30]) (fun _ => some [5])
    "resultados.csv" "participantes.csv" [10, 20, 30] [5] rfl rfl none
  exact ⟨h.1, h.2.1, h.2.2 2 30 (by decide) rfl⟩

/-- C7: a missing source file makes `carregar_tabela_csv` raise
`FileNotFoundError` before any batch is read or written (the `.error`
result carries no table state: the target table is untouched), and a
missing result file makes `carregar_tabela_resultados` raise the same
error before any read. -/
theorem carga_arquivo_ausente (fs : String → Option (List ρ))
    (caminho : String) (h : fs caminho = none) (B : Nat) (table : Table ρ)
    (aR : String → Option (List σ)) (aP : String → Option (List ι))
    (fR fP : String) (hfR : aR fR = none)
    (tableR : Table (JoinedRow σ ι)) :
    carregar_tabela_csv fs caminho B table =
        .error ("Arquivo não encontrado: " ++ caminho) ∧
      carregar_tabela_resultados aR aP fR fP tableR =
        .error ("Arquivo não encontrado: " ++ fR) := by
  constructor
  · unfold carregar_tabela_csv
    rw [h]
  · unfold carregar_tabela_resultados
    rw [hfR]

/-- Witness for `carga_arquivo_ausente` on an everywhere-empty filesystem
and a prior table that stays as it is. -/
theorem carga_arquivo_ausente_witness :
    carregar_tabela_csv (fun _ => (none : Option (List Nat))) "faltando.csv" 1
        (some [7]) = .error ("Arquivo não encontrado: " ++ "faltando.csv") ∧
      carregar_tabela_resultados (fun _ => (none : Option (List Nat)))
        (fun _ => (none : Option (List Nat))) "faltando2.csv" "p.csv"
        (some [(⟨1, some 2⟩ : JoinedRow Nat Nat)]) =
        .error ("Arquivo não encontrado: " ++ "faltando2.csv") :=
  carga_arquivo_ausente (fun _ => none) "faltando.csv" rfl 1 (some [7])
    (fun _ => none) (fun _ => none) "faltando2.csv" "p.csv" rfl
    (some [⟨1, some 2⟩])

/-- C3: `verificar_carregar` is a pure function of the two existence
flags: both tables present → no load step (idempotent skip); exactly one
missing → only the corresponding loader; both missing → both loaders, in
source order. -/
theorem verificar_carregar_maquina_de_estados :
    verificar_carregar true true = [] ∧
      verificar_carregar false true = [EtapaCarga.carga_participantes] ∧
      verificar_carregar true false = [EtapaCarga.carga_resultados] ∧
      verificar_carregar false false =
        [EtapaCarga.carga_participantes, EtapaCarga.carga_resultados] := by
  decide

/-- The row mean of four non-null scores is their arithmetic mean. -/
theorem mean_axis1_quatro (cn ch lc mt : ℚ) :
    mean_axis1 [some cn, some ch, some lc, some mt]
      = some ((cn + ch + lc + mt) / 4) := by
  unfold mean_axis1
  simp only [List.filterMap_cons, id, List.filterMap_nil, List.isEmpty_cons,
    if_false, List.sum_cons, List.sum_nil, List.length_cons, List.length_nil]
  norm_num
  ring_nf

/-- Every row produced by the analysis query has income code A or B. -/
theorem consulta_Q006 (ps : List ParticipanteRow) (rs : List ResultadoRow) :
    ∀ q ∈ consulta ps rs, q.Q006 = "A" ∨ q.Q006 = "B" := by
  intro q hq
  unfold consulta at hq
  rw [List.mem_flatMap] at hq
  obtain ⟨p, hp, hq⟩ := hq
  rw [List.mem_filterMap] at hq
  obtain ⟨r, hr, hq⟩ := hq
  by_cases h : r.NU_INSCRICAO = some p.NU_INSCRICAO ∧
      (p.Q006 = "A" ∨ p.Q006 = "B")
  · rw [if_pos h] at hq
    obtain rfl := Option.some.inj hq
    exact h.2
  · rw [if_neg h] at hq
    exact absurd hq (by simp)

/-- C5: every row of the DataFrame returned by `extrair_processar` has
non-null values in all five score columns: rows with a null among the five
are dropped before the derived columns are computed. -/
theorem extrair_processar_notas_completas (ps : List ParticipanteRow)
    (rs : List ResultadoRow) :
    ∀ a ∈ extrair_processar ps rs,
      a.base.NU_NOTA_CN.isSome = true ∧ a.base.NU_NOTA_CH.isSome = true ∧
        a.base.NU_NOTA_LC.isSome = true ∧ a.base.NU_NOTA_MT.isSome = true ∧
        a.base.NU_NOTA_REDACAO.isSome = true := by
  intro a ha
  unfold extrair_processar at ha
  rw [List.mem_map] at ha
  obtain ⟨q, hq, rfl⟩ := ha
  unfold dropna_notas at hq
  rw [List.mem_filter] at hq
  have h := hq.2
  unfold notas_completas at h
  simp only [Bool.and_eq_true] at h
  exact ⟨h.1.1.1.1, h.1.1.1.2, h.1.1.2, h.1.2, h.2⟩

/-- Witness for `extrair_processar_notas_completas` on a 1-participant,
1-result store. -/
theorem extrair_processar_notas_completas_witness :
    (⟨⟨"A", "F", 1, "SP", some 1, some 2, some 3, some 4, some 5⟩,
        mean_axis1 [some 1, some 2, some 3, some 4],
        some "Nenhuma Renda"⟩ : AnaliseRow) ∈
        extrair_processar [⟨"001", "A", "F", 1, "SP"⟩]
          [⟨some "001", some 1, some 2, some 3, some 4, some 5⟩] ∧
      (some (1 : ℚ)).isSome = true := by
  have hmem : (⟨⟨"A", "F", 1, "SP", some 1, some 2, some 3, some 4, some 5⟩,
      mean_axis1 [some 1, some 2, some 3, some 4],
      some "Nenhuma Renda"⟩ : AnaliseRow) ∈
      extrair_processar [⟨"001", "A", "F", 1, "SP"⟩]
        [⟨some "001", some 1, some 2, some 3, some 4, some 5⟩] := by
    have h : extrair_processar [⟨"001", "A", "F", 1, "SP"⟩]
        [⟨some "001", some 1, some 2, some 3, some 4, some 5⟩]
        = [⟨⟨"A", "F", 1, "SP", some 1, some 2, some 3, some 4, some 5⟩,
            mean_axis1 [some 1, some 2, some 3, some 4],
            some "Nenhuma Renda"⟩] := rfl
    rw [h]
    exact List.mem_singleton.mpr rfl
  exact ⟨hmem,
    (extrair_processar_notas_completas [⟨"001", "A", "F", 1, "SP"⟩]
      [⟨some "001", some 1, some 2, some 3, some 4, some 5⟩] _ hmem).1⟩

/-- C4: in every output row of `extrair_processar`, the derived column
`NOTA_MEDIA_OBJETIVA` is the arithmetic mean of exactly the four non-essay
scores CN, CH, LC, MT — `NU_NOTA_REDACAO` does not enter.  Scores are
modelled exactly over `ℚ`, so the floating-point tolerance is 0. -/
theorem extrair_processar_media_objetiva (ps : List ParticipanteRow)
    (rs : List ResultadoRow) :
    ∀ a ∈ extrair_processar ps rs, ∀ (cn ch lc mt : ℚ),
      a.base.NU_NOTA_CN = some cn → a.base.NU_NOTA_CH = some ch →
      a.base.NU_NOTA_LC = some lc → a.base.NU_NOTA_MT = some mt →
      a.NOTA_MEDIA_OBJETIVA = some ((cn + ch + lc + mt) / 4) := by
  intro a ha cn ch lc mt hcn hch hlc hmt
  unfold extrair_processar at ha
  rw [List.mem_map] at ha
  obtain ⟨q, hq, rfl⟩ := ha
  change q.NU_NOTA_CN = some cn at hcn
  change q.NU_NOTA_CH = some ch at hch
  change q.NU_NOTA_LC = some lc at hlc
  change q.NU_NOTA_MT = some mt at hmt
  change mean_axis1 [q.NU_NOTA_CN, q.NU_NOTA_CH, q.NU_NOTA_LC, q.NU_NOTA_MT]
    = some ((cn + ch + lc + mt) / 4)
  rw [hcn, hch, hlc, hmt, mean_axis1_quatro]

/-- Witness for `extrair_processar_media_objetiva`: scores 1,2,3,4 give
mean (1+2+3+4)/4 (the essay score 5 is ignored). -/
theorem extrair_processar_media_objetiva_witness :
    (⟨⟨"A", "F", 1, "SP", some 1, some 2, some 3, some 4, some 5⟩,
        mean_axis1 [some 1, some 2, some 3, some 4],
        some "Nenhuma Renda"⟩ : AnaliseRow).NOTA_MEDIA_OBJETIVA
      = some ((1 + 2 + 3 + 4) / 4 : ℚ) := by
  have hmem : (⟨⟨"A", "F", 1, "SP", some 1, some 2, some 3, some 4, some 5⟩,
      mean_axis1 [some 1, some 2, some 3, some 4],
      some "Nenhuma Renda"⟩ : AnaliseRow) ∈
      extrair_processar [⟨"001", "A", "F", 1, "SP"⟩]
        [⟨some "001", some 1, some 2, some 3, some 4, some 5⟩] := by
    have h : extrair_processar [⟨"001", "A", "F", 1, "SP"⟩]
        [⟨some "001", some 1, some 2, some 3, some 4, some 5⟩]
        = [⟨⟨"A", "F", 1, "SP", some 1, some 2, some 3, some 4, some 5⟩,
            mean_axis1 [some 1, some 2, some 3, some 4],
            some "Nenhuma Renda"⟩] := rfl
    rw [h]
    exact List.mem_singleton.mpr rfl
  exact extrair_processar_media_objetiva [⟨"001", "A", "F", 1, "SP"⟩]
    [⟨some "001", some 1, some 2, some 3, some 4, some 5⟩]
    _ hmem 1 2 3 4 rfl rfl rfl rfl

/-- C6: `extrair_processar` retains only income codes A and B, and labels
them deterministically: A gives `Nenhuma Renda`, B gives `Até 1,3k` — so
every output row carries one of exactly these two labels, matching its
code. -/
theorem extrair_processar_grupo_renda (ps : List ParticipanteRow)
    (rs : List ResultadoRow) :
    ∀ a ∈ extrair_processar ps rs,
      (a.base.Q006 = "A" ∧ a.GRUPO_RENDA = some "Nenhuma Renda") ∨
        (a.base.Q006 = "B" ∧ a.GRUPO_RENDA = some "Até 1,3k") := by
  intro a ha
  unfold extrair_processar at ha
  rw [List.mem_map] at ha
  obtain ⟨q, hq, rfl⟩ := ha
  have hQ : q.Q006 = "A" ∨ q.Q006 = "B" :=
    consulta_Q006 ps rs q (List.mem_of_mem_filter hq)
  rcases hQ with h | h
  · refine Or.inl ⟨h, ?_⟩
    change mapa_renda q.Q006 = some "Nenhuma Renda"
    rw [h]
    rfl
  · refine Or.inr ⟨h, ?_⟩
    change mapa_renda q.Q006 = some "Até 1,3k"
    rw [h]
    rfl

/-- Witness for `extrair_processar_grupo_renda` on an income-code-B
participant. -/
theorem extrair_processar_grupo_renda_witness :
    ((⟨⟨"B", "M", 2, "RJ", some 1, some 1, some 1, some 1, some 1⟩,
          mean_axis1 [some 1, some 1, some 1, some 1],
          some "Até 1,3k"⟩ : AnaliseRow).base.Q006 = "A" ∧
        (⟨⟨"B", "M", 2, "RJ", some 1, some 1, some 1, some 1, some 1⟩,
          mean_axis1 [some 1, some 1, some 1, some 1],
          some "Até 1,3k"⟩ : AnaliseRow).GRUPO_RENDA
          = some "Nenhuma Renda") ∨
      ((⟨⟨"B", "M", 2, "RJ", some 1, some 1, some 1, some 1, some 1⟩,
          mean_axis1 [some 1, some 1, some 1, some 1],
          some "Até 1,3k"⟩ : AnaliseRow).base.Q006 = "B" ∧
        (⟨⟨"B", "M", 2, "RJ", some 1, some 1, some 1, some 1, some 1⟩,
          mean_axis1 [some 1, some 1, some 1, some 1],
          some "Até 1,3k"⟩ : AnaliseRow).GRUPO_RENDA
          = some "Até 1,3k") := by
  have hmem : (⟨⟨"B", "M", 2, "RJ", some 1, some 1, some 1, some 1, some 1⟩,
      mean_axis1 [some 1, some 1, some 1, some 1],
      some "Até 1,3k"⟩ : AnaliseRow) ∈
      extrair_processar [⟨"002", "B", "M", 2, "RJ"⟩]
        [⟨some "002", some 1, some 1, some 1, some 1, some 1⟩] := by
    have h : extrair_processar [⟨"002", "B", "M", 2, "RJ"⟩]
        [⟨some "002", some 1, some 1, some 1, some 1, some 1⟩]
        = [⟨⟨"B", "M", 2, "RJ", some 1, some 1, some 1, some 1, some 1⟩,
            mean_axis1 [some 1, some 1, some 1, some 1],
            some "Até 1,3k"⟩] := rfl
    rw [h]
    exact List.mem_singleton.mpr rfl
  exact extrair_processar_grupo_renda [⟨"002", "B", "M", 2, "RJ"⟩]
    [⟨some "002", some 1, some 1, some 1, some 1, some 1⟩] _ hmem

/-- C8 (amended): `carregar_config` performs the descriptive non-zero exit
only for a falsy `DB_PASS` (unset or empty); an unset `DB_PORT` raises a
`TypeError` from `int(None)`; with the port convertible and a non-falsy
password it returns the config dict normally, passing every other key
through as-is — including `none` for any other unset required value. -/
theorem carregar_config_exige_somente_senha (env : Env) :
    (env.DB_PORT = none → carregar_config env = ConfigResultado.erro_tipo) ∧
      (∀ (s : String) (porta : Int), env.DB_PORT = some s →
        python_int s = some porta →
        ((env.DB_PASS = none ∨ env.DB_PASS = some "") →
          carregar_config env
            = ConfigResultado.encerrado msg_senha_ausente) ∧
        (env.DB_PASS ≠ none → env.DB_PASS ≠ some "" →
          carregar_config env = ConfigResultado.ok
            { DB_HOST := env.DB_HOST
              DB_PORT := porta
              DB_NAME := env.DB_NAME
              DB_USER := env.DB_USER
              DB_PASS := env.DB_PASS
              ARQUIVO_PARTICIPANTES := env.ARQUIVO_PARTICIPANTES
              ARQUIVO_RESULTADOS := env.ARQUIVO_RESULTADOS
              TABELA_PARTICIPANTES := env.TABELA_PARTICIPANTES
              TABELA_RESULTADOS := env.TABELA_RESULTADOS })) := by
  refine ⟨?_, ?_⟩
  · intro h
    unfold carregar_config
    rw [h]
  · intro s porta hs hporta
    constructor
    · intro hpass
      simp only [carregar_config, hs, hporta]
      rw [if_pos hpass]
    · intro h1 h2
      simp only [carregar_config, hs, hporta]
      rw [if_neg (not_or.mpr ⟨h1, h2⟩)]

/-- Witness for `carregar_config_exige_somente_senha`: port set, password
set, host unset — the function returns normally. -/
theorem carregar_config_exige_somente_senha_witness :
    carregar_config
        { DB_HOST := none
          DB_PORT := some "5432"
          DB_NAME := some "enem"
          DB_USER := some "postgres"
          DB_PASS := some "segredo"
          ARQUIVO_PARTICIPANTES := some "PARTICIPANTES.csv"
          ARQUIVO_RESULTADOS := some "RESULTADOS.csv"
          TABELA_PARTICIPANTES := some "participantes"
          TABELA_RESULTADOS := some "resultados" }
      = ConfigResultado.ok
        { DB_HOST := none
          DB_PORT := 5432
          DB_NAME := some "enem"
          DB_USER := some "postgres"
          DB_PASS := some "segredo"
          ARQUIVO_PARTICIPANTES := some "PARTICIPANTES.csv"
          ARQUIVO_RESULTADOS := some "RESULTADOS.csv"
          TABELA_PARTICIPANTES := some "participantes"
          TABELA_RESULTADOS := some "resultados" } :=
  ((carregar_config_exige_somente_senha
      { DB_HOST := none
        DB_PORT := some "5432"
        DB_NAME := some "enem"
        DB_USER := some "postgres"
        DB_PASS := some "segredo"
        ARQUIVO_PARTICIPANTES := some "PARTICIPANTES.csv"
        ARQUIVO_RESULTADOS := some "RESULTADOS.csv"
        TABELA_PARTICIPANTES := some "participantes"
        TABELA_RESULTADOS := some "resultados" }).2
    "5432" 5432 rfl (by decide)).2 (by decide) (by decide)

/-- Counterexample to C8 as stated: with `DB_HOST` (a required value)
absent and everything else set, `carregar_config` returns the config
normally — no termination, no message naming the missing host. -/
theorem carregar_config_host_ausente_nao_encerra :
    carregar_config
          { DB_HOST := none
            DB_PORT := some "5432"
            DB_NAME := some "enem"
            DB_USER := some "postgres"
            DB_PASS := some "segredo"
            ARQUIVO_PARTICIPANTES := some "PARTICIPANTES.csv"
            ARQUIVO_RESULTADOS := some "RESULTADOS.csv"
            TABELA_PARTICIPANTES := some "participantes"
            TABELA_RESULTADOS := some "resultados" }
        = ConfigResultado.ok
          { DB_HOST := none
            DB_PORT := 5432
            DB_NAME := some "enem"
            DB_USER := some "postgres"
            DB_PASS := some "segredo"
            ARQUIVO_PARTICIPANTES := some "PARTICIPANTES.csv"
            ARQUIVO_RESULTADOS := some "RESULTADOS.csv"
            TABELA_PARTICIPANTES := some "participantes"
            TABELA_RESULTADOS := some "resultados" } ∧
      (carregar_config
          { DB_HOST := none
            DB_PORT := some "5432"
            DB_NAME := some "enem"
            DB_USER := some "postgres"
            DB_PASS := some "segredo"
            ARQUIVO_PARTICIPANTES := some "PARTICIPANTES.csv"
            ARQUIVO_RESULTADOS := some "RESULTADOS.csv"
            TABELA_PARTICIPANTES := some "participantes"
            TABELA_RESULTADOS := some "resultados" }).encerrou = false := by
  exact ⟨by decide, by decide⟩

/-- C9 (bug exhibit): the FROM and JOIN clauses of the analysis query are
the fixed strings `participantes` and `resultados`; with the configurable
table names set to anything else (as in `config_exemplo`), the tables the
orchestrator reads and writes are not the tables the query references. -/
theorem consulta_ignora_tabelas_configuradas :
    contem_texto consulta_sql "FROM participantes AS p JOIN resultados AS r"
        = true ∧
      tabelas_da_consulta = ["participantes", "resultados"] ∧
      tabelas_do_orquestrador config_exemplo
        = [some "enem_participantes", some "enem_resultados"] ∧
      tabelas_da_consulta.map some ≠ tabelas_do_orquestrador config_exemplo := by
  refine ⟨by decide, rfl, rfl, ?_⟩
  decide
